import Mathlib

/-!
Shallow embedding of the template-selection and outreach-learning engine of
the web-automation repository (src/brain.py and src/brain_leads.py).

Conventions of the embedding:
* Python floats are modelled by `ℚ`; all arithmetic in the engine is formed
  from integer counters, the constants 1.0/1.5/2.0/3.0/10.0, addition,
  multiplication and division, so rational arithmetic reproduces it exactly
  on the algebraic level the properties speak about.
* JSON objects (the persisted stats dictionaries) are modelled by
  association lists `List (String × _)`, with dictionary assignment as
  replace-first-or-append (`setKey`) and membership test via `lookupKey`.
* `random.random()` is modelled by an explicit parameter `u : ℚ` (a draw in
  `[0,1)`), `random.choice` by an explicit index parameter, and the small
  tie-breaking jitters by an explicit list of rationals.
* File I/O is modelled by an explicit file state (`TFile`, `LFile`): the
  backing file is absent, present but unparseable, or present with a
  parseable store.  A function that writes returns the new file state; a
  Python exception escaping a function is an `Except.error`.
* The prompt bodies of the template catalog are opaque payloads the engine
  never inspects; the embedding keeps each template's `id` and `weight`
  (the fields the selection logic reads) and drops the prompt text.
-/

/-- Dictionary lookup on an association list (first binding wins, as in a
Python dict, which cannot hold duplicate keys). -/
def lookupKey {α : Type} : List (String × α) → String → Option α
  | [], _ => none
  | (k', v) :: rest, k => if k' = k then some v else lookupKey rest k

/-- Dictionary assignment `d[k] = v`: replace the first binding of `k`, or
append a new binding when `k` is absent. -/
def setKey {α : Type} : List (String × α) → String → α → List (String × α)
  | [], k, v => [(k, v)]
  | (k', v') :: rest, k, v =>
      if k' = k then (k, v) :: rest else (k', v') :: setKey rest k v

/-- In-place update `d[k] = f d[k]` of the first binding of `k` (no-op when
`k` is absent; the source only does this after ensuring the key exists). -/
def modifyKey {α : Type} : List (String × α) → String → (α → α) → List (String × α)
  | [], _, _ => []
  | (k', v) :: rest, k, f =>
      if k' = k then (k', f v) :: rest else (k', v) :: modifyKey rest k f

/-- `pat` occurs at the start of `l` (character-list version of Python
string prefix testing, used only to build the substring test below). -/
def listStartsWith : List Char → List Char → Bool
  | _, [] => true
  | [], _ :: _ => false
  | a :: as, b :: bs => a == b && listStartsWith as bs

/-- `pat` occurs somewhere inside `l`. -/
def listHasSub : List Char → List Char → Bool
  | [], pat => pat.isEmpty
  | a :: rest, pat => listStartsWith (a :: rest) pat || listHasSub rest pat

/-- Python's `kw in s` substring test on strings. -/
def strContains (s kw : String) : Bool :=
  listHasSub s.data kw.data

/-- Python's `any(kw in text for kw in kws)`. -/
def anyKw (text : String) (kws : List String) : Bool :=
  kws.any (fun kw => strContains text kw)

/-! ## Template dimension (src/brain.py) -/

/-- Counter bundle of the template dimension: `{"uses": int, "success": int}`. -/
structure TBundle where
  uses : ℕ
  success : ℕ
deriving DecidableEq, Repr

/-- A template catalog entry; `id` and `weight` are the fields the engine
reads (the prompt body is an opaque payload, dropped here). -/
structure Template where
  id : String
  weight : ℚ
deriving DecidableEq, Repr

/-- The static template catalog `TEMPLATES` of src/brain.py (ids and base
weights; every base weight is 1.0 in the source). -/
def TEMPLATES : List Template :=
  [⟨"basic_clean", 1⟩, ⟨"pro_modern", 1⟩, ⟨"premium_gradient", 1⟩,
   ⟨"ultra_dark", 1⟩, ⟨"restaurant_premium", 1⟩, ⟨"realtor_premium", 1⟩]

/-- The persisted template stats object: template id → counter bundle. -/
abbrev TStore := List (String × TBundle)

/-- `stats.get(tid, {"uses": 0, "success": 0})`. -/
def getBundleT (s : TStore) (k : String) : TBundle :=
  (lookupKey s k).getD ⟨0, 0⟩

/-- The niche boost dictionary of `choose_template` (src/brain.py lines
359–394): lower-case the industry text, and for each curated keyword group
that substring-matches, add the hand-tuned bonuses; groups are additive. -/
def niche_boosts (industry : String) (tid : String) : ℚ :=
  let il := industry.toLower
  (if anyKw il ["roof", "solar", "auto", "car", "garage", "construction",
                "plumb", "electric"] then
     (if tid = "pro_modern" then (3/2 : ℚ) else 0) +
     (if tid = "ultra_dark" then 1 else 0)
   else 0) +
  (if anyKw il ["restaurant", "cafe", "café", "food", "dining", "bistro"] then
     (if tid = "restaurant_premium" then (3 : ℚ) else 0) +
     (if tid = "premium_gradient" then 1 else 0)
   else 0) +
  (if anyKw il ["real estate", "realtor", "property", "estate agent",
                "broker"] then
     (if tid = "realtor_premium" then (3 : ℚ) else 0) +
     (if tid = "pro_modern" then 1 else 0)
   else 0) +
  (if anyKw il ["law", "tax", "consult", "account", "firm", "agency"] then
     (if tid = "basic_clean" then (3/2 : ℚ) else 0) +
     (if tid = "pro_modern" then 1 else 0)
   else 0)

/-- `success_rate = (success + 1) / (uses + 2)` (src/brain.py line 404),
the Beta(1,1)-smoothed success rate. -/
def success_rate (b : TBundle) : ℚ :=
  ((b.success : ℚ) + 1) / ((b.uses : ℚ) + 2)

/-- The `scored` list of `choose_template` (src/brain.py lines 396–407):
each catalog entry paired with
`t["weight"] + niche_boosts[tid] + success_rate * 2.0`. -/
def scoredList (industry : String) (stats : TStore) : List (Template × ℚ) :=
  TEMPLATES.map (fun t =>
    (t, t.weight + niche_boosts industry t.id + success_rate (getBundleT stats t.id) * 2))

/-- `total = sum(score for _, score in scored)` (src/brain.py line 409). -/
def totalScore (industry : String) (stats : TStore) : ℚ :=
  ((scoredList industry stats).map Prod.snd).sum

/-- The roulette walk of `choose_template` (src/brain.py lines 411–418):
accumulate the running sum, return the first entry with `r <= running`,
falling back to `fallback` (the source initialises `chosen = scored[0][0]`)
when no entry reaches the draw. -/
def rouletteWalk (r : ℚ) (fallback : Template) :
    ℚ → List (Template × ℚ) → Template
  | _, [] => fallback
  | running, (t, score) :: rest =>
      let running' := running + score
      if r ≤ running' then t else rouletteWalk r fallback running' rest

/-- Placeholder entry for `List.headD`; `scoredList` always has six entries,
so it is never actually used. -/
def dummyScored : Template × ℚ := (⟨"", 0⟩, 0)

/-- The selection part of `choose_template` (src/brain.py lines 396–418):
score every candidate, draw `r = u * total` with `u` the `random.random()`
draw, and run the roulette walk. -/
def choose_template_pick (industry : String) (stats : TStore) (u : ℚ) : Template :=
  let scored := scoredList industry stats
  let total := (scored.map Prod.snd).sum
  let r := u * total
  rouletteWalk r (scored.headD dummyScored).1 0 scored

/-- `if tid not in stats: stats[tid] = {"uses": 0, "success": 0}` (the lazy
creation used by both `choose_template` and `record_template_result`). -/
def ensureKeyT (s : TStore) (k : String) : TStore :=
  if (lookupKey s k).isNone then setKey s k ⟨0, 0⟩ else s

/-- The usage-recording tail of `choose_template` (src/brain.py lines
420–425): reload the store, lazily create the chosen id, increment its
`uses`, and save; the returned store is the persisted content. -/
def recordUsage (stats : TStore) (tid : String) : TStore :=
  let s := ensureKeyT stats tid
  let b := getBundleT s tid
  setKey s tid ⟨b.uses + 1, b.success⟩

/-- `choose_template` (src/brain.py lines 357–427): pick a template by
scored roulette, record its usage, and return the chosen template together
with the persisted store.  The `business_name`/`city` parameters of the
source are never read by its body and are omitted. -/
def choose_template (industry : String) (stats : TStore) (u : ℚ) :
    Template × TStore :=
  let chosen := choose_template_pick industry stats u
  (chosen, recordUsage stats chosen.id)

/-- `record_template_result` (src/brain.py lines 474–487): lazily create
the id, increment `success` when the outcome flag is set, and save. -/
def record_template_result (stats : TStore) (tid : String) (success : Bool) :
    TStore :=
  let s := ensureKeyT stats tid
  if success then
    let b := getBundleT s tid
    setKey s tid ⟨b.uses, b.success + 1⟩
  else s

/-- `build_prompt_for_business` (src/brain.py lines 434–467), restricted to
the data the engine computes: the returned template id and the persisted
store.  A truthy `preferred_template_id` is searched in the catalog; when
found it is used as-is (no store write), otherwise the brain chooses. -/
def build_prompt_for_business (industry : String)
    (preferred : Option String) (stats : TStore) (u : ℚ) : String × TStore :=
  let found : Option Template :=
    match preferred with
    | none => none
    | some p => if p = "" then none else TEMPLATES.find? (fun t => t.id == p)
  match found with
  | some t => (t.id, stats)
  | none =>
      let c := choose_template industry stats u
      (c.1.id, c.2)

/-- On-disk state of data/template_stats.json: absent, present but not
parseable as JSON, or present with a parseable store. -/
inductive TFile where
  | absent : TFile
  | corrupt : TFile
  | good : TStore → TFile
deriving DecidableEq, Repr

/-- The zeroed store `{t["id"]: {"uses": 0, "success": 0} for t in TEMPLATES}`. -/
def zeroedTStore : TStore :=
  TEMPLATES.map (fun t => (t.id, ⟨0, 0⟩))

/-- `_load_template_stats` (src/brain.py lines 335–344): when the file is
absent, synthesize the zeroed catalog store, save it, and return it; when
present, `json.load` it — there is no exception handler, so unparseable
content raises to the caller (`Except.error`). -/
def load_template_stats : TFile → Except Unit (TStore × TFile)
  | .absent => .ok (zeroedTStore, .good zeroedTStore)
  | .corrupt => .error ()
  | .good s => .ok (s, .good s)

/-! ## Outreach dimension (src/brain_leads.py) -/

/-- Counter bundle of the outreach dimension:
`{"sent": int, "opens": int, "clicks": int, "conversions": int}`. -/
structure LBundle where
  sent : ℕ
  opens : ℕ
  clicks : ℕ
  conversions : ℕ
deriving DecidableEq, Repr

/-- The zeroed bundle used by every lazy creation in src/brain_leads.py. -/
def zeroLBundle : LBundle := ⟨0, 0, 0, 0⟩

/-- The persisted outreach stats structure (src/brain_leads.py lines 48–57);
`last_updated` is a wall-clock timestamp string never read by the engine and
is not modelled. -/
structure LStats where
  niches : List (String × LBundle)
  countries : List (String × LBundle)
  subjects : List (String × LBundle)
  total_sent : ℕ
  total_opens : ℕ
  total_clicks : ℕ
  total_conversions : ℕ
deriving DecidableEq, Repr

/-- `DEFAULT_STATS` (src/brain_leads.py lines 48–57): empty per-candidate
mappings and zero aggregates. -/
def DEFAULT_STATS : LStats := ⟨[], [], [], 0, 0, 0, 0⟩

/-- On-disk state of data/brain_stats.json. -/
inductive LFile where
  | absent : LFile
  | corrupt : LFile
  | good : LStats → LFile
deriving DecidableEq, Repr

/-- `load_stats` (src/brain_leads.py lines 60–77): when the file is absent,
save and return `DEFAULT_STATS`; when unparseable, fall back to
`DEFAULT_STATS` in memory (the `except` branch — nothing is written back);
when parseable, return the data with the defaulted keys ensured (our
`good` state carries a fully-keyed structure, for which the ensure-keys
loop is the identity). -/
def load_stats : LFile → LStats × LFile
  | .absent => (DEFAULT_STATS, .good DEFAULT_STATS)
  | .corrupt => (DEFAULT_STATS, .corrupt)
  | .good s => (s, .good s)

/-- `GLOBAL_NICHES` (src/brain_leads.py lines 13–33). -/
def GLOBAL_NICHES : List String :=
  ["restaurant", "cafe", "auto repair", "car dealer", "clinic", "dentist",
   "salon", "barber", "spa", "real estate", "roofing", "cleaning", "fitness",
   "law firm", "photography", "ecommerce", "coffee shop", "pet grooming",
   "accounting"]

/-- `GLOBAL_COUNTRIES` (src/brain_leads.py lines 35–46). -/
def GLOBAL_COUNTRIES : List String :=
  ["Japan", "USA", "UK", "Canada", "Australia", "Germany", "France", "UAE",
   "Singapore", "India"]

/-- Lazy creation `if k not in d: d[k] = zeroed` on an outreach bucket map. -/
def ensureKeyL (l : List (String × LBundle)) (k : String) :
    List (String × LBundle) :=
  if (lookupKey l k).isNone then setKey l k zeroLBundle else l

/-- The per-bucket counter increments of `record_result` for one recorded
send: `sent += 1`, and `opens`/`clicks`/`conversions` up by one when the
corresponding flag is set. -/
def bumpBundle (opened clicked converted : Bool) (b : LBundle) : LBundle :=
  ⟨b.sent + 1,
   b.opens + (if opened then 1 else 0),
   b.clicks + (if clicked then 1 else 0),
   b.conversions + (if converted then 1 else 0)⟩

/-- `record_result` (src/brain_leads.py lines 87–133): bump the aggregate
totals, lazily create the niche/country/subject buckets, bump each bucket's
counters per the outcome flags, and save.  The returned structure is the
persisted content. -/
def record_result (stats : LStats) (niche country subject : String)
    (opened clicked converted : Bool) : LStats :=
  { niches := modifyKey (ensureKeyL stats.niches niche) niche
      (bumpBundle opened clicked converted),
    countries := modifyKey (ensureKeyL stats.countries country) country
      (bumpBundle opened clicked converted),
    subjects := modifyKey (ensureKeyL stats.subjects subject) subject
      (bumpBundle opened clicked converted),
    total_sent := stats.total_sent + 1,
    total_opens := stats.total_opens + (if opened then 1 else 0),
    total_clicks := stats.total_clicks + (if clicked then 1 else 0),
    total_conversions := stats.total_conversions + (if converted then 1 else 0) }

/-- `_score_bucket` (src/brain_leads.py lines 136–151): `0.0` when nothing
was sent, otherwise the weighted signal
`(conversions*10 + clicks*3 + opens*1) / sent`. -/
def score_bucket (b : LBundle) : ℚ :=
  if b.sent = 0 then 0
  else ((b.conversions : ℚ) * 10 + (b.clicks : ℚ) * 3 + (b.opens : ℚ) * 1) /
    (b.sent : ℚ)

/-- The exploitation loop of `choose_best_niche`/`choose_best_country`
(src/brain_leads.py lines 167–178): track the best score seen (starting at
-1.0), adding a per-entry tie-breaking jitter, and keep the strictly better
entry. -/
def exploitBest :
    List (String × LBundle) → List ℚ → Option String → ℚ → Option String
  | [], _, best, _ => best
  | (n, d) :: rest, js, best, bestScore =>
      let s := score_bucket d + js.headD 0
      if bestScore < s then exploitBest rest js.tail (some n) s
      else exploitBest rest js.tail best bestScore

/-- `choose_best_niche` (src/brain_leads.py lines 154–178) at the source's
default `epsilon = 0.2`: explore a random global niche with probability
epsilon or when no niche was recorded, otherwise exploit the
jittered-argmax recorded niche.  `u` models the epsilon draw, `pick` the
`random.choice` index, `jitter` the per-entry noise draws.  The function
never writes: the file state after the call is whatever `load_stats`
left. -/
def choose_best_niche (file : LFile) (u : ℚ) (pick : ℕ) (jitter : List ℚ) :
    String × LFile :=
  let ld := load_stats file
  let stats := ld.1
  if u < (1/5 : ℚ) ∨ stats.niches.isEmpty then
    (GLOBAL_NICHES.getD (pick % GLOBAL_NICHES.length) "", ld.2)
  else
    ((exploitBest stats.niches jitter none (-1)).getD
      (GLOBAL_NICHES.getD (pick % GLOBAL_NICHES.length) ""), ld.2)

/-- `choose_best_country` (src/brain_leads.py lines 181–202) at the source's
default `epsilon = 0.25`; same shape as `choose_best_niche`. -/
def choose_best_country (file : LFile) (u : ℚ) (pick : ℕ) (jitter : List ℚ) :
    String × LFile :=
  let ld := load_stats file
  let stats := ld.1
  if u < (1/4 : ℚ) ∨ stats.countries.isEmpty then
    (GLOBAL_COUNTRIES.getD (pick % GLOBAL_COUNTRIES.length) "", ld.2)
  else
    ((exploitBest stats.countries jitter none (-1)).getD
      (GLOBAL_COUNTRIES.getD (pick % GLOBAL_COUNTRIES.length) ""), ld.2)

/-- `base_subjects` of `choose_subject` (src/brain_leads.py lines 212–218). -/
def BASE_SUBJECTS : List String :=
  ["We built a website for your business",
   "Your new website preview is ready",
   "Website proposal for your company",
   "Exclusive AI website demo for you",
   "Your business now has an AI website"]

/-- The ensure loop of `choose_subject` (src/brain_leads.py lines 225–227):
lazily add every base subject to the tracked map. -/
def ensureBaseSubjects (l : List (String × LBundle)) :
    List (String × LBundle) :=
  BASE_SUBJECTS.foldl (fun acc s => ensureKeyL acc s) l

/-- The threshold walk of `choose_subject` (src/brain_leads.py lines
246–255): cumulative normalized weights, first subject whose threshold
reaches the draw. -/
def subjectWalk (r : ℚ) : ℚ → List (String × ℚ) → Option String
  | _, [] => none
  | acc, (s, w) :: rest =>
      let acc' := acc + w
      if r ≤ acc' then some s else subjectWalk r acc' rest

/-- `choose_subject` (src/brain_leads.py lines 205–257) in state-passing
form: takes the current store, the `random.random()` draw `u` and the
`random.choice` index `pick`; returns the chosen subject and the store as
persisted after the call (the only write is saving the ensure-loop's lazy
additions, and only on the non-empty branch). -/
def choose_subject (stats : LStats) (u : ℚ) (pick : ℕ) : String × LStats :=
  if stats.subjects.isEmpty then
    (BASE_SUBJECTS.getD (pick % BASE_SUBJECTS.length) "", stats)
  else
    let subs := ensureBaseSubjects stats.subjects
    let stats' := { stats with subjects := subs }
    let weighted := subs.map (fun p =>
      (p.1, ((p.2.opens : ℚ) + 1) / ((p.2.sent : ℚ) + 1)))
    let totalW := (weighted.map Prod.snd).sum
    if totalW ≤ 0 then
      (BASE_SUBJECTS.getD (pick % BASE_SUBJECTS.length) "", stats')
    else
      ((subjectWalk u 0 (weighted.map (fun p => (p.1, p.2 / totalW)))).getD
        ((weighted.map Prod.fst).getLastD ""), stats')

/-! ## Spec-side definitions

These two definitions are written from the specification's wording (not from
the source), to be compared with the source-derived definitions above. -/

/-- The spec's Mode A per-candidate score:
`total_score = base_weight + boost[id] + score(bundle[id]) * amplification_factor`
with `amplification_factor = 2.0` and `score` the Beta(1,1)-smoothed rate. -/
def spec_total_score (industry : String) (stats : TStore) (t : Template) : ℚ :=
  t.weight + niche_boosts industry t.id + success_rate (getBundleT stats t.id) * 2

/-- The spec's Mode A selection rule: walk the candidates in catalog order
accumulating a running sum and return the first whose cumulative sum reaches
or exceeds the draw `r` (none if no candidate reaches it). -/
def specFirstReach (r : ℚ) : ℚ → List (Template × ℚ) → Option Template
  | _, [] => none
  | acc, (t, s) :: rest =>
      if r ≤ acc + s then some t else specFirstReach r (acc + s) rest

/-- The spec's weighted multi-signal outreach score:
`(conversions*10 + clicks*3 + opens*1) / max(sent, 1)`. -/
def spec_outreach_score (b : LBundle) : ℚ :=
  ((b.conversions : ℚ) * 10 + (b.clicks : ℚ) * 3 + (b.opens : ℚ) * 1) /
    ((max b.sent 1 : ℕ) : ℚ)

/-! ## Recording-sequence semantics (for the counter-coherence invariant) -/

/-- One outreach-engine call touching the stats store: a `record_result`
call with its arguments, or a `choose_subject` call with its random draws. -/
inductive LOp where
  | send : String → String → String → Bool → Bool → Bool → LOp
  | subj : ℚ → ℕ → LOp

/-- The store effect of one call. -/
def stepOp (s : LStats) : LOp → LStats
  | .send n c sub o cl cv => record_result s n c sub o cl cv
  | .subj u pick => (choose_subject s u pick).2

/-- The store after a sequence of calls. -/
def runOps : LStats → List LOp → LStats
  | s, [] => s
  | s, op :: ops => runOps (stepOp s op) ops

/-- Sum of one counter field over all buckets of a map. -/
def sumProj (g : LBundle → ℕ) (l : List (String × LBundle)) : ℕ :=
  (l.map (fun p => g p.2)).sum

/-- The aggregate counters agree with the per-bucket sums in every
dimension. -/
def statsCoherent (s : LStats) : Prop :=
  s.total_sent = sumProj LBundle.sent s.niches ∧
  s.total_sent = sumProj LBundle.sent s.countries ∧
  s.total_sent = sumProj LBundle.sent s.subjects ∧
  s.total_opens = sumProj LBundle.opens s.niches ∧
  s.total_opens = sumProj LBundle.opens s.countries ∧
  s.total_opens = sumProj LBundle.opens s.subjects ∧
  s.total_clicks = sumProj LBundle.clicks s.niches ∧
  s.total_clicks = sumProj LBundle.clicks s.countries ∧
  s.total_clicks = sumProj LBundle.clicks s.subjects ∧
  s.total_conversions = sumProj LBundle.conversions s.niches ∧
  s.total_conversions = sumProj LBundle.conversions s.countries ∧
  s.total_conversions = sumProj LBundle.conversions s.subjects

/-- The niche `sent` counter stored in a file state (0 when the file holds
no parseable store or the niche is untracked). -/
def nicheSentIn : LFile → String → ℕ
  | .good s, n => ((lookupKey s.niches n).getD zeroLBundle).sent
  | _, _ => 0

/-! ## Association-list lemmas -/

lemma lookupKey_setKey_self {α : Type} (l : List (String × α)) (k : String)
    (v : α) : lookupKey (setKey l k v) k = some v := by
  induction l with
  | nil => simp [setKey, lookupKey]
  | cons p rest ih =>
      obtain ⟨k', v'⟩ := p
      by_cases h : k' = k
      · simp [setKey, h, lookupKey]
      · simp [setKey, h, lookupKey, ih]

lemma lookupKey_ensureKeyT_self (s : TStore) (k : String) :
    lookupKey (ensureKeyT s k) k = some (getBundleT s k) := by
  unfold ensureKeyT
  by_cases h : (lookupKey s k).isNone
  · rw [if_pos h, lookupKey_setKey_self, getBundleT,
      Option.isNone_iff_eq_none.mp h]
    rfl
  · rw [if_neg h, getBundleT]
    cases hl : lookupKey s k with
    | none => rw [hl] at h; simp at h
    | some v => simp

lemma getBundleT_ensureKeyT (s : TStore) (k : String) :
    getBundleT (ensureKeyT s k) k = getBundleT s k := by
  rw [getBundleT, lookupKey_ensureKeyT_self, Option.getD_some]

lemma lookupKey_modifyKey_self {α : Type} (l : List (String × α)) (k : String)
    (f : α → α) : lookupKey (modifyKey l k f) k = (lookupKey l k).map f := by
  induction l with
  | nil => simp [modifyKey, lookupKey]
  | cons p rest ih =>
      obtain ⟨k', v⟩ := p
      by_cases h : k' = k
      · simp [modifyKey, h, lookupKey]
      · simp [modifyKey, h, lookupKey, ih]

lemma lookupKey_ensureKeyL_self (l : List (String × LBundle)) (k : String) :
    lookupKey (ensureKeyL l k) k = some ((lookupKey l k).getD zeroLBundle) := by
  unfold ensureKeyL
  by_cases h : (lookupKey l k).isNone
  · rw [if_pos h, lookupKey_setKey_self, Option.isNone_iff_eq_none.mp h]
    rfl
  · rw [if_neg h]
    cases hl : lookupKey l k with
    | none => rw [hl] at h; simp at h
    | some v => simp

lemma setKey_of_absent {α : Type} (l : List (String × α)) (k : String) (v : α)
    (h : lookupKey l k = none) : setKey l k v = l ++ [(k, v)] := by
  induction l with
  | nil => simp [setKey]
  | cons p rest ih =>
      obtain ⟨k', v'⟩ := p
      by_cases hk : k' = k
      · simp [lookupKey, hk] at h
      · simp only [lookupKey, if_neg hk] at h
        simp [setKey, hk, ih h]

lemma sumProj_ensureKeyL (g : LBundle → ℕ) (hg : g zeroLBundle = 0)
    (l : List (String × LBundle)) (k : String) :
    sumProj g (ensureKeyL l k) = sumProj g l := by
  unfold ensureKeyL
  by_cases h : (lookupKey l k).isNone
  · rw [if_pos h, setKey_of_absent l k _ (Option.isNone_iff_eq_none.mp h)]
    simp [sumProj, hg]
  · rw [if_neg h]

lemma sumProj_modifyKey (g : LBundle → ℕ) (f : LBundle → LBundle) (d : ℕ)
    (hf : ∀ b, g (f b) = g b + d) (l : List (String × LBundle)) (k : String)
    (h : (lookupKey l k).isSome) :
    sumProj g (modifyKey l k f) = sumProj g l + d := by
  induction l with
  | nil => simp [lookupKey] at h
  | cons p rest ih =>
      obtain ⟨k', v⟩ := p
      by_cases hk : k' = k
      · simp only [modifyKey, if_pos hk, sumProj, List.map_cons, List.sum_cons,
          hf v]
        omega
      · simp only [lookupKey, if_neg hk] at h
        simp only [modifyKey, if_neg hk, sumProj, List.map_cons, List.sum_cons]
        have := ih h
        simp only [sumProj] at this
        omega

lemma isSome_lookupKey_ensureKeyL (l : List (String × LBundle)) (k : String) :
    (lookupKey (ensureKeyL l k) k).isSome := by
  rw [lookupKey_ensureKeyL_self]; rfl

/-- The change each recorded send makes to one bucket-counter sum. -/
lemma sumProj_record_bucket (g : LBundle → ℕ) (d : ℕ) (o cl cv : Bool)
    (hg : g zeroLBundle = 0)
    (hf : ∀ b, g (bumpBundle o cl cv b) = g b + d)
    (l : List (String × LBundle)) (k : String) :
    sumProj g (modifyKey (ensureKeyL l k) k (bumpBundle o cl cv))
      = sumProj g l + d := by
  rw [sumProj_modifyKey g _ d hf _ k (isSome_lookupKey_ensureKeyL l k),
    sumProj_ensureKeyL g hg]

lemma sumProj_ensureBaseSubjects (g : LBundle → ℕ) (hg : g zeroLBundle = 0)
    (l : List (String × LBundle)) :
    sumProj g (ensureBaseSubjects l) = sumProj g l := by
  unfold ensureBaseSubjects
  generalize BASE_SUBJECTS = ks
  induction ks generalizing l with
  | nil => rfl
  | cons k ks ih =>
      simp only [List.foldl_cons]
      rw [ih (ensureKeyL l k), sumProj_ensureKeyL g hg]

/-- The only store effect of `choose_subject` is ensuring the base
subjects (and only on the branch where tracked subjects exist). -/
lemma choose_subject_state (s : LStats) (u : ℚ) (pick : ℕ) :
    (choose_subject s u pick).2 = s ∨
    (choose_subject s u pick).2 = { s with subjects := ensureBaseSubjects s.subjects } := by
  unfold choose_subject
  by_cases h : s.subjects.isEmpty
  · simp [h]
  · right
    simp only [h, Bool.false_eq_true, if_false]
    split <;> rfl

/-! ## Recording lemmas -/

lemma lookup_record_template_true (s : TStore) (tid : String) :
    lookupKey (record_template_result s tid true) tid
      = some ⟨(getBundleT s tid).uses, (getBundleT s tid).success + 1⟩ := by
  unfold record_template_result
  rw [if_pos rfl, lookupKey_setKey_self, getBundleT_ensureKeyT]

lemma getBundleT_record_template_true (s : TStore) (tid : String) :
    getBundleT (record_template_result s tid true) tid
      = ⟨(getBundleT s tid).uses, (getBundleT s tid).success + 1⟩ := by
  rw [getBundleT, lookup_record_template_true, Option.getD_some]

lemma getBundleT_recordUsage (s : TStore) (tid : String) :
    getBundleT (recordUsage s tid)
      tid = ⟨(getBundleT s tid).uses + 1, (getBundleT s tid).success⟩ := by
  unfold recordUsage
  rw [getBundleT, lookupKey_setKey_self, Option.getD_some, getBundleT_ensureKeyT]

lemma lookup_record_result_niches (st : LStats) (n c sub : String)
    (o cl cv : Bool) :
    lookupKey (record_result st n c sub o cl cv).niches n
      = some (bumpBundle o cl cv ((lookupKey st.niches n).getD zeroLBundle)) := by
  unfold record_result
  dsimp only
  rw [lookupKey_modifyKey_self, lookupKey_ensureKeyL_self]
  rfl

/-! ## Coherence preservation -/

lemma statsCoherent_record (s : LStats) (n c sub : String) (o cl cv : Bool)
    (h : statsCoherent s) :
    statsCoherent (record_result s n c sub o cl cv) := by
  obtain ⟨h1, h2, h3, h4, h5, h6, h7, h8, h9, h10, h11, h12⟩ := h
  unfold statsCoherent record_result
  dsimp only
  refine ⟨?_, ?_, ?_, ?_, ?_, ?_, ?_, ?_, ?_, ?_, ?_, ?_⟩
  · rw [sumProj_record_bucket LBundle.sent 1 o cl cv rfl (fun b => rfl)]; omega
  · rw [sumProj_record_bucket LBundle.sent 1 o cl cv rfl (fun b => rfl)]; omega
  · rw [sumProj_record_bucket LBundle.sent 1 o cl cv rfl (fun b => rfl)]; omega
  · rw [sumProj_record_bucket LBundle.opens (if o then 1 else 0) o cl cv rfl
      (fun b => rfl)]; omega
  · rw [sumProj_record_bucket LBundle.opens (if o then 1 else 0) o cl cv rfl
      (fun b => rfl)]; omega
  · rw [sumProj_record_bucket LBundle.opens (if o then 1 else 0) o cl cv rfl
      (fun b => rfl)]; omega
  · rw [sumProj_record_bucket LBundle.clicks (if cl then 1 else 0) o cl cv rfl
      (fun b => rfl)]; omega
  · rw [sumProj_record_bucket LBundle.clicks (if cl then 1 else 0) o cl cv rfl
      (fun b => rfl)]; omega
  · rw [sumProj_record_bucket LBundle.clicks (if cl then 1 else 0) o cl cv rfl
      (fun b => rfl)]; omega
  · rw [sumProj_record_bucket LBundle.conversions (if cv then 1 else 0) o cl cv
      rfl (fun b => rfl)]; omega
  · rw [sumProj_record_bucket LBundle.conversions (if cv then 1 else 0) o cl cv
      rfl (fun b => rfl)]; omega
  · rw [sumProj_record_bucket LBundle.conversions (if cv then 1 else 0) o cl cv
      rfl (fun b => rfl)]; omega

lemma statsCoherent_step (s : LStats) (op : LOp) (h : statsCoherent s) :
    statsCoherent (stepOp s op) := by
  cases op with
  | send n c sub o cl cv => exact statsCoherent_record s n c sub o cl cv h
  | subj u pick =>
      show statsCoherent (choose_subject s u pick).2
      rcases choose_subject_state s u pick with he | he
      · rw [he]; exact h
      · rw [he]
        obtain ⟨h1, h2, h3, h4, h5, h6, h7, h8, h9, h10, h11, h12⟩ := h
        unfold statsCoherent
        dsimp only
        rw [sumProj_ensureBaseSubjects LBundle.sent rfl,
          sumProj_ensureBaseSubjects LBundle.opens rfl,
          sumProj_ensureBaseSubjects LBundle.clicks rfl,
          sumProj_ensureBaseSubjects LBundle.conversions rfl]
        exact ⟨h1, h2, h3, h4, h5, h6, h7, h8, h9, h10, h11, h12⟩

lemma statsCoherent_runOps (ops : List LOp) :
    ∀ s : LStats, statsCoherent s → statsCoherent (runOps s ops) := by
  induction ops with
  | nil => intro s h; exact h
  | cons op ops ih =>
      intro s h
      exact ih (stepOp s op) (statsCoherent_step s op h)

/-! ## Roulette-walk refinement -/

lemma rouletteWalk_eq_specFirstReach (r : ℚ) (fb : Template) :
    ∀ (l : List (Template × ℚ)) (acc : ℚ),
      rouletteWalk r fb acc l = (specFirstReach r acc l).getD fb := by
  intro l
  induction l with
  | nil => intro acc; rfl
  | cons p rest ih =>
      intro acc
      obtain ⟨t, sc⟩ := p
      unfold rouletteWalk specFirstReach
      dsimp only
      split
      · rfl
      · exact ih (acc + sc)

/-- The roulette walk returns the fallback or one of the walked
candidates. -/
lemma rouletteWalk_mem (r : ℚ) (fb : Template) :
    ∀ (l : List (Template × ℚ)) (acc : ℚ),
      rouletteWalk r fb acc l = fb ∨
      rouletteWalk r fb acc l ∈ l.map Prod.fst := by
  intro l
  induction l with
  | nil => intro acc; exact Or.inl rfl
  | cons p rest ih =>
      intro acc
      obtain ⟨t, sc⟩ := p
      unfold rouletteWalk
      dsimp only
      split
      · right; simp
      · rcases ih (acc + sc) with h | h
        · exact Or.inl h
        · right; simp [h]

/-- `choose_template_pick` always returns a catalog template. -/
lemma choose_template_pick_mem (industry : String) (stats : TStore) (u : ℚ) :
    choose_template_pick industry stats u ∈ TEMPLATES := by
  have hpick : choose_template_pick industry stats u
      = rouletteWalk (u * totalScore industry stats)
          ((scoredList industry stats).headD dummyScored).1 0
          (scoredList industry stats) := rfl
  rw [hpick]
  rcases rouletteWalk_mem (u * totalScore industry stats)
      ((scoredList industry stats).headD dummyScored).1
      (scoredList industry stats) 0 with h | h
  · rw [h]
    simp [scoredList, TEMPLATES]
  · have hmap : (scoredList industry stats).map Prod.fst = TEMPLATES := rfl
    rw [hmap] at h
    exact h

/-! ## Claim theorems -/

/-- C1: Mode A template selection scores every candidate as
`base_weight + boost[id] + smoothed_score * 2.0`, and with the draw
`r = u * total` (for `random.random()` draw `u`) returns the first
candidate in catalog order whose cumulative running sum of scores reaches
or exceeds the draw; and on a catalog whose scores sum to zero (only
possible with all weights and boosts zero) the walk returns the first
candidate. -/
theorem C1_mode_a_selection :
    (∀ (industry : String) (stats : TStore),
        scoredList industry stats
          = TEMPLATES.map (fun t => (t, spec_total_score industry stats t)))
    ∧ (∀ (industry : String) (stats : TStore) (u : ℚ),
        choose_template_pick industry stats u
          = (specFirstReach (u * totalScore industry stats) 0
              (scoredList industry stats)).getD
              ((scoredList industry stats).headD dummyScored).1)
    ∧ (∀ (l : List (Template × ℚ)) (fb : Template) (u : ℚ),
        (∀ p ∈ l, 0 ≤ p.2) → (l.map Prod.snd).sum = 0 →
        rouletteWalk (u * (l.map Prod.snd).sum) fb 0 l
          = (l.headD (fb, 0)).1) := by
  refine ⟨fun industry stats => rfl,
    fun industry stats u => rouletteWalk_eq_specFirstReach _ _ _ _, ?_⟩
  intro l fb u hpos hsum
  cases l with
  | nil => rfl
  | cons p rest =>
      obtain ⟨t, sc⟩ := p
      rw [hsum, mul_zero]
      unfold rouletteWalk
      dsimp only
      rw [if_pos]
      · rfl
      · have hsc : 0 ≤ sc := hpos (t, sc) (by simp)
        linarith

/-- Witness for C1 at concrete inputs: the refinement at empty stats with
draw 1/2, and the zero-sum edge case on a one-candidate list of score 0. -/
theorem C1_mode_a_selection_witness :
    choose_template_pick "" [] (1/2)
      = (specFirstReach ((1/2) * totalScore "" []) 0 (scoredList "" [])).getD
          ((scoredList "" []).headD dummyScored).1
    ∧ rouletteWalk ((1/2 : ℚ) *
          ([((⟨"solo", 1⟩ : Template), (0 : ℚ))].map Prod.snd).sum)
        ⟨"fallback", 1⟩ 0 [((⟨"solo", 1⟩ : Template), (0 : ℚ))]
      = ([((⟨"solo", 1⟩ : Template), (0 : ℚ))].headD (⟨"fallback", 1⟩, 0)).1 :=
  ⟨C1_mode_a_selection.2.1 "" [] (1/2),
   C1_mode_a_selection.2.2 [((⟨"solo", 1⟩ : Template), (0 : ℚ))]
     ⟨"fallback", 1⟩ (1/2)
     (by intro p hp; simp at hp; simp [hp]) (by simp)⟩

/-- The starting store of the C2 counterexample: one recorded niche with
one send. -/
def c2Store : LStats := ⟨[("restaurant", ⟨1, 0, 0, 0⟩)], [], [], 1, 0, 0, 0⟩

/-- C2 counterexample: an exploitation call of `choose_best_niche`
(epsilon draw 1/2, one recorded niche) returns "restaurant" but leaves the
persisted store untouched — the chosen niche's `sent` counter is NOT
incremented before the selection function returns, contradicting the claim
that every selection in both modes increments the counter and persists. -/
theorem C2_counterexample :
    (choose_best_niche (.good c2Store) (1/2) 0 [0]).1 = "restaurant"
    ∧ ¬ (nicheSentIn (choose_best_niche (.good c2Store) (1/2) 0 [0]).2
          "restaurant"
        = nicheSentIn (.good c2Store) "restaurant" + 1) := by
  have hsb : score_bucket ⟨1, 0, 0, 0⟩ = 0 := by norm_num [score_bucket]
  have hrun : choose_best_niche (.good c2Store) (1/2) 0 [0]
      = ("restaurant", .good c2Store) := by
    unfold choose_best_niche load_stats
    dsimp only
    rw [if_neg ?hc]
    case hc =>
      rintro (h | h)
      · norm_num at h
      · simp [c2Store] at h
    simp only [c2Store]
    unfold exploitBest
    dsimp only
    rw [if_pos ?hlt]
    case hlt =>
      rw [hsb]
      norm_num
    rfl
  rw [hrun]
  refine ⟨rfl, ?_⟩
  decide

/-- C2 amended: only Mode A (`choose_template`) counts the selection —
the chosen template's `uses` is incremented by exactly one (success
untouched) in the persisted store before returning; the Mode B selectors
`choose_best_niche` and `choose_best_country` never write, their
post-call file state is exactly what `load_stats` left. -/
theorem C2_selection_recording :
    (∀ (industry : String) (stats : TStore) (u : ℚ),
        (getBundleT (choose_template industry stats u).2
            (choose_template industry stats u).1.id).uses
          = (getBundleT stats (choose_template industry stats u).1.id).uses + 1
        ∧ (getBundleT (choose_template industry stats u).2
            (choose_template industry stats u).1.id).success
          = (getBundleT stats (choose_template industry stats u).1.id).success)
    ∧ (∀ (f : LFile) (u : ℚ) (pick : ℕ) (jitter : List ℚ),
        (choose_best_niche f u pick jitter).2 = (load_stats f).2)
    ∧ (∀ (f : LFile) (u : ℚ) (pick : ℕ) (jitter : List ℚ),
        (choose_best_country f u pick jitter).2 = (load_stats f).2) := by
  refine ⟨fun industry stats u => ?_, fun f u pick jitter => ?_,
    fun f u pick jitter => ?_⟩
  · constructor
    · show (getBundleT (recordUsage stats (choose_template_pick industry stats u).id)
          (choose_template_pick industry stats u).id).uses = _
      rw [getBundleT_recordUsage]
      rfl
    · show (getBundleT (recordUsage stats (choose_template_pick industry stats u).id)
          (choose_template_pick industry stats u).id).success = _
      rw [getBundleT_recordUsage]
      rfl
  · unfold choose_best_niche
    dsimp only
    split <;> rfl
  · unfold choose_best_country
    dsimp only
    split <;> rfl

/-- C3 counterexample: with a preferred id that names no catalog template
("nope"), `build_prompt_for_business` does not return that id — it falls
back to the learned selection (here choosing "basic_clean"), contradicting
the claim for arbitrary preferred strings. -/
theorem C3_counterexample :
    (build_prompt_for_business "" (some "nope") [] 0).1 ≠ "nope" := by
  have heq : (build_prompt_for_business "" (some "nope") [] 0).1
      = (choose_template_pick "" [] 0).id := rfl
  rw [heq]
  intro hid
  have hcat : ∀ t ∈ TEMPLATES, t.id ≠ "nope" := by decide
  exact hcat _ (choose_template_pick_mem "" [] 0) hid

/-- C3 amended: for every preferred id that names a template of the
catalog, `build_prompt_for_business` returns that id for every context,
stats store and random draw, bypassing the learned policy and writing
nothing; an unknown or empty preferred id instead falls back to
`choose_template`. -/
theorem C3_preferred_override (p : String)
    (hp : p ∈ TEMPLATES.map Template.id) :
    ∀ (industry : String) (stats : TStore) (u : ℚ),
      (build_prompt_for_business industry (some p) stats u).1 = p
      ∧ (build_prompt_for_business industry (some p) stats u).2 = stats := by
  simp only [TEMPLATES, List.map_cons, List.map_nil, List.mem_cons,
    List.not_mem_nil, or_false] at hp
  rcases hp with h | h | h | h | h | h <;> subst h <;>
    exact fun industry stats u => ⟨rfl, rfl⟩

/-- Witness for C3 at a concrete input: preferred id "ultra_dark". -/
theorem C3_preferred_override_witness :
    (build_prompt_for_business "restaurant" (some "ultra_dark") [] (1/3)).1
      = "ultra_dark"
    ∧ (build_prompt_for_business "restaurant" (some "ultra_dark") [] (1/3)).2
      = [] :=
  C3_preferred_override "ultra_dark" (by decide) "restaurant" [] (1/3)

/-- C4 counterexample: the smoothed scoring variant at `uses = 0` is NOT
constant in `success` — `success_rate ⟨0, 1⟩ = 1` while
`success_rate ⟨0, 0⟩ = 1/2` — contradicting the claim that every scoring
variant returns the same constant regardless of the success value. -/
theorem C4_counterexample :
    success_rate ⟨0, 1⟩ ≠ success_rate ⟨0, 0⟩ := by
  norm_num [success_rate]

/-- C4 amended: at zero uses the raw-zero variant `_score_bucket` returns
the constant `0.0` regardless of all other counters, and is never negative
on any bundle; the smoothed variant at zero uses returns `(success + 1)/2`
— defined (no NaN) and strictly positive, but dependent on `success`. -/
theorem C4_zero_uses_scoring :
    (∀ opens clicks conv : ℕ, score_bucket ⟨0, opens, clicks, conv⟩ = 0)
    ∧ (∀ b : LBundle, 0 ≤ score_bucket b)
    ∧ (∀ success : ℕ,
        success_rate ⟨0, success⟩ = ((success : ℚ) + 1) / 2)
    ∧ (∀ b : TBundle, 0 < success_rate b) := by
  refine ⟨fun opens clicks conv => by simp [score_bucket], fun b => ?_,
    fun success => by norm_num [success_rate], fun b => ?_⟩
  · unfold score_bucket
    split
    · exact le_refl 0
    · positivity
  · unfold success_rate
    positivity

/-- C5: the Beta(1,1)-smoothed score of a valid bundle
(`success ≤ uses`) is strictly positive and at most 1, and for fixed
`uses` it is monotonically non-decreasing in `success`. -/
theorem C5_smoothing_bounds (uses success : ℕ) (h : success ≤ uses) :
    0 < success_rate ⟨uses, success⟩ ∧ success_rate ⟨uses, success⟩ ≤ 1
    ∧ ∀ s1 s2 : ℕ, s1 ≤ s2 →
        success_rate ⟨uses, s1⟩ ≤ success_rate ⟨uses, s2⟩ := by
  refine ⟨?_, ?_, ?_⟩
  · unfold success_rate
    positivity
  · unfold success_rate
    rw [div_le_one (by positivity)]
    have hc : (success : ℚ) ≤ uses := by exact_mod_cast h
    linarith
  · intro s1 s2 h12
    unfold success_rate
    have hc : (s1 : ℚ) ≤ s2 := by exact_mod_cast h12
    gcongr

/-- Witness for C5 at the concrete valid bundle `uses = 3, success = 2`
(and monotonicity instantiated at `success` 1 ≤ 2). -/
theorem C5_smoothing_bounds_witness :
    0 < success_rate ⟨3, 2⟩ ∧ success_rate ⟨3, 2⟩ ≤ 1
    ∧ success_rate ⟨3, 1⟩ ≤ success_rate ⟨3, 2⟩ :=
  ⟨(C5_smoothing_bounds 3 2 (by decide)).1,
   (C5_smoothing_bounds 3 2 (by decide)).2.1,
   (C5_smoothing_bounds 3 2 (by decide)).2.2 1 2 (by decide)⟩

/-- C6 counterexample: at `sent = 0` with `opens = 1` the source's
`_score_bucket` returns `0.0`, while the claimed formula
`(conversions*10 + clicks*3 + opens*1) / max(sent, 1)` gives `1` — the
claimed formula does not describe the function on bundles with
`sent = 0`. -/
theorem C6_counterexample :
    score_bucket ⟨0, 1, 0, 0⟩ ≠ spec_outreach_score ⟨0, 1, 0, 0⟩ := by
  norm_num [score_bucket, spec_outreach_score]

/-- C6 amended: for every bundle with `sent ≥ 1` the function returns
`(conversions*10 + clicks*3 + opens*1) / max(sent, 1)` (equal there to
division by `sent`); at `sent = 0` it returns `0.0` regardless of the
other counters. -/
theorem C6_weighted_score :
    (∀ b : LBundle, b.sent ≠ 0 → score_bucket b = spec_outreach_score b)
    ∧ (∀ opens clicks conv : ℕ, score_bucket ⟨0, opens, clicks, conv⟩ = 0) := by
  constructor
  · intro b hb
    unfold score_bucket spec_outreach_score
    rw [if_neg hb]
    have hmax : max b.sent 1 = b.sent := by omega
    rw [hmax]
  · intro opens clicks conv
    simp [score_bucket]

/-- Witness for C6 at the concrete bundles `⟨2,1,1,1⟩` and `⟨0,7,7,7⟩`. -/
theorem C6_weighted_score_witness :
    score_bucket ⟨2, 1, 1, 1⟩ = spec_outreach_score ⟨2, 1, 1, 1⟩
    ∧ score_bucket ⟨0, 7, 7, 7⟩ = 0 :=
  ⟨C6_weighted_score.1 ⟨2, 1, 1, 1⟩ (by decide), C6_weighted_score.2 7 7 7⟩

/-- C7 counterexample: when the outreach backing file is absent, the store
returned by `load_stats` does NOT contain the global-pool niche
"restaurant" (its niche map is empty) — the global niche/country pools are
not seeded with zeroed counters, contradicting the claim. -/
theorem C7_counterexample :
    "restaurant" ∈ GLOBAL_NICHES
    ∧ lookupKey (load_stats .absent).1.niches "restaurant" = none :=
  ⟨by decide, rfl⟩

/-- C7 amended: on an absent backing file the template loader seeds every
catalog template id with zeroed counters and persists that store before
returning; the outreach loader instead persists and returns
`DEFAULT_STATS`, whose per-candidate maps are empty (buckets are only
lazily created when first recorded) and whose aggregates are zero. -/
theorem C7_load_absent :
    load_template_stats .absent = .ok (zeroedTStore, .good zeroedTStore)
    ∧ (∀ t ∈ TEMPLATES, lookupKey zeroedTStore t.id = some ⟨0, 0⟩)
    ∧ load_stats .absent = (DEFAULT_STATS, .good DEFAULT_STATS)
    ∧ DEFAULT_STATS.niches = [] ∧ DEFAULT_STATS.countries = []
    ∧ DEFAULT_STATS.subjects = []
    ∧ DEFAULT_STATS.total_sent = 0 ∧ DEFAULT_STATS.total_opens = 0
    ∧ DEFAULT_STATS.total_clicks = 0
    ∧ DEFAULT_STATS.total_conversions = 0 :=
  ⟨rfl, by decide, rfl, rfl, rfl, rfl, rfl, rfl, rfl, rfl⟩

/-- Witness for C7 at a concrete catalog template ("ultra_dark"). -/
theorem C7_load_absent_witness :
    lookupKey zeroedTStore "ultra_dark" = some ⟨0, 0⟩ :=
  C7_load_absent.2.1 ⟨"ultra_dark", 1⟩ (by decide)

/-- C8 counterexample: on an unparseable backing file the template loader
`_load_template_stats` has no exception handler — `json.load` raises to
the caller (modelled as `Except.error`), contradicting the claim that load
never raises for any file content. -/
theorem C8_counterexample :
    load_template_stats .corrupt = .error ()
    ∧ ¬ ∃ r, load_template_stats .corrupt = .ok r := by
  refine ⟨rfl, ?_⟩
  rintro ⟨r, hr⟩
  simp [load_template_stats] at hr

/-- C8 amended: the outreach loader `load_stats` never raises — corrupt
content is replaced by the default store in memory (the file itself is
left as found, since the except-branch does not save) and every file state
yields either the default store or the parsed store; the template loader,
by contrast, propagates a parse error on corrupt content. -/
theorem C8_corrupt_recovery :
    load_stats .corrupt = (DEFAULT_STATS, .corrupt)
    ∧ load_template_stats .corrupt = .error ()
    ∧ ∀ f : LFile, (load_stats f).1 = DEFAULT_STATS
        ∨ ∃ s, f = .good s ∧ (load_stats f).1 = s := by
  refine ⟨rfl, rfl, ?_⟩
  intro f
  cases f with
  | absent => exact Or.inl rfl
  | corrupt => exact Or.inl rfl
  | good s => exact Or.inr ⟨s, rfl, rfl⟩

/-- C9: recording is not idempotent and lazily creates unknown ids: for
every starting store, two positive-outcome recordings of the same id leave
its success/conversions counter exactly two above its prior value (zero
when the id was absent), with the id present afterwards in every case. -/
theorem C9_recording_not_idempotent :
    (∀ (s : TStore) (tid : String),
        lookupKey (record_template_result
            (record_template_result s tid true) tid true) tid
          = some ⟨(getBundleT s tid).uses, (getBundleT s tid).success + 2⟩)
    ∧ (∀ (st : LStats) (n c sub : String),
        (record_result (record_result st n c sub false false true) n c sub
            false false true).total_conversions
          = st.total_conversions + 2
        ∧ lookupKey (record_result (record_result st n c sub false false true)
              n c sub false false true).niches n
          = some ⟨((lookupKey st.niches n).getD zeroLBundle).sent + 2,
                  ((lookupKey st.niches n).getD zeroLBundle).opens,
                  ((lookupKey st.niches n).getD zeroLBundle).clicks,
                  ((lookupKey st.niches n).getD zeroLBundle).conversions + 2⟩) := by
  constructor
  · intro s tid
    rw [lookup_record_template_true, getBundleT_record_template_true]
  · intro st n c sub
    constructor
    · rfl
    · rw [lookup_record_result_niches, lookup_record_result_niches,
        Option.getD_some]
      rfl

/-- C10: starting from the default (empty) outreach store, after any
sequence of `record_result` and `choose_subject` calls, each aggregate
counter (`total_sent`/`total_opens`/`total_clicks`/`total_conversions`)
equals the sum of the corresponding per-niche, per-country and per-subject
bucket counters. -/
theorem C10_counter_coherence (ops : List LOp) :
    statsCoherent (runOps DEFAULT_STATS ops) :=
  statsCoherent_runOps ops DEFAULT_STATS
    ⟨rfl, rfl, rfl, rfl, rfl, rfl, rfl, rfl, rfl, rfl, rfl, rfl⟩
